import Mathlib

/-!
Shallow embedding of `src/bin/full-node/src/network_service.rs` (smoldot full
node, background network service).  Pure decision logic of the file is
translated into executable Lean definitions; the effectful parts (socket
binds, TCP connects, the engine) are modelled as explicit oracles (`Bool`
valued functions or parameters) so that every control-flow path of the source
is represented by a value of an inductive outcome type.
-/

/-- One component of a libp2p multiaddress, mirroring the variants of
`smoldot::libp2p::multiaddr::Protocol` that the source file inspects.  IPv4
and IPv6 literals are modelled as a `Nat`, DNS names as a `String`.  The
remaining variants of the real enum (udp, ws, p2p, ...) are never matched
individually by the source, so they are modelled here by representative
constructors that fall into every catch-all arm of the source. -/
inductive Protocol where
  | ip4 (addr : Nat)
  | ip6 (addr : Nat)
  | tcp (port : Nat)
  | udp (port : Nat)
  | dns (addr : String)
  | dns4 (addr : String)
  | dns6 (addr : String)
  | ws
  | p2p (peer : Nat)
  deriving DecidableEq, Repr

/-- A multiaddress is a sequence of protocol components (`Multiaddr::iter`). -/
abbrev Multiaddr := List Protocol

/-- Result of `SocketAddr::from((ip, port))` in the listener-setup code:
either an IPv4 or an IPv6 socket address. -/
structure SocketAddr where
  isV6 : Bool
  ip : Nat
  port : Nat
  deriving DecidableEq, Repr

/-- Error type of `NetworkService::new` (`enum InitError`).  The `io::Error`
payload of `ListenerIo` is not needed by any claim and is dropped. -/
inductive InitError where
  | ListenerIo (addr : Multiaddr)
  | BadListenMultiaddr (addr : Multiaddr)
  deriving DecidableEq, Repr

/-- Parsing of one listen address inside `NetworkService::new` (lines
128-146): take the first component (error if absent), the second component
(error if absent), error if a third component exists, then accept exactly the
pairs `(Ip4, Tcp)` and `(Ip6, Tcp)`; every other pair is an error.  An error
here becomes `InitError::BadListenMultiaddr`. -/
def parseListenMultiaddr : Multiaddr → Except Unit SocketAddr
  | [p1, p2] =>
    match p1, p2 with
    | .ip4 ip, .tcp port => .ok ⟨false, ip, port⟩
    | .ip6 ip, .tcp port => .ok ⟨true, ip, port⟩
    | _, _ => .error ()
  | _ => .error ()

/-- The per-listen-address body of `NetworkService::new` (lines 125-154):
parse the address, and on success attempt to bind a TCP listener.  The bind
system call is modelled by the oracle `bind : SocketAddr → Bool` (`true` =
bind succeeded).  The first component of the result is the outcome
(`Ok(listener)` abstracted to the socket address, or the `InitError`); the
second component records the list of bind attempts that were performed, so
that "no bind attempt" is an observable fact of the model. -/
def setupListener (bind : SocketAddr → Bool) (listenAddress : Multiaddr) :
    Except InitError SocketAddr × List SocketAddr :=
  match parseListenMultiaddr listenAddress with
  | .error _ => (.error (.BadListenMultiaddr listenAddress), [])
  | .ok addr =>
    if bind addr then (.ok addr, [addr])
    else (.error (.ListenerIo listenAddress), [addr])

/-- The shape of listen addresses accepted by the source code: exactly two
components, `(Ip4, Tcp)` or `(Ip6, Tcp)`. -/
def supportedListenShape : Multiaddr → Bool
  | [.ip4 _, .tcp _] => true
  | [.ip6 _, .tcp _] => true
  | _ => false

/-- Target of the dial future built by `multiaddr_to_socket`: either
`TcpStream::connect(SocketAddr::new(ip, port))` for IP literals, or
`TcpStream::connect((name, port))` (OS-side DNS resolution) for the three DNS
variants, which the source treats identically (its own TODO notes that the
differences between dns, dns4 and dns6 are not respected). -/
inductive DialTarget where
  | ip (isV6 : Bool) (addr : Nat) (port : Nat)
  | byName (name : String) (port : Nat)
  deriving DecidableEq, Repr

/-- The function `multiaddr_to_socket` (lines 544-586): take the first two
components, error if fewer or more than two exist, then accept exactly the
pairs `(ip4|ip6|dns|dns4|dns6, tcp)` and build the corresponding connect
target; every other pair is an error. -/
def multiaddr_to_socket : Multiaddr → Except Unit DialTarget
  | [p1, p2] =>
    match p1, p2 with
    | .ip4 ip, .tcp port => .ok (.ip false ip port)
    | .ip6 ip, .tcp port => .ok (.ip true ip port)
    | .dns a, .tcp port => .ok (.byName a port)
    | .dns4 a, .tcp port => .ok (.byName a port)
    | .dns6 a, .tcp port => .ok (.byName a port)
    | _, _ => .error ()
  | _ => .error ()

/-- The shape of dial addresses accepted by `multiaddr_to_socket`: exactly
two components, first `ip4`, `ip6`, `dns`, `dns4` or `dns6`, second `tcp`. -/
def supportedDialShape : Multiaddr → Bool
  | [.ip4 _, .tcp _] => true
  | [.ip6 _, .tcp _] => true
  | [.dns _, .tcp _] => true
  | [.dns4 _, .tcp _] => true
  | [.dns6 _, .tcp _] => true
  | _ => false

/-- What the dial loop of `NetworkService::new` (lines 280-307) does with the
multiaddress of one slot returned by `fill_out_slots`:
`reportErrContinue` models the `Err(_)` arm (call `pending_outcome_err` and
`continue`, with no dial attempt and no task spawned), `spawnConnectionTask`
models the `Ok(socket)` arm (spawn `connection_task` with the dial target). -/
inductive DialStep where
  | reportErrContinue
  | spawnConnectionTask (target : DialTarget)
  deriving DecidableEq, Repr

/-- Decision taken by the dial loop for one slot's multiaddress. -/
def dialLoopStep (addr : Multiaddr) : DialStep :=
  match multiaddr_to_socket addr with
  | .error _ => .reportErrContinue
  | .ok target => .spawnConnectionTask target

/-- Terminal outcome reported to the engine for a pending connection token:
`err` models a `pending_outcome_err` call, `ok` a `pending_outcome_ok` call. -/
inductive PendingOutcome where
  | err
  | ok
  deriving DecidableEq, Repr

/-- Outcome reports performed by the dialing phase of `connection_task`
(lines 436-444): if the TCP connect future fails, `pending_outcome_err` is
called and the task returns; if it succeeds, `pending_outcome_ok` is called.
The oracle `connectOk` models the result of awaiting the connect future. -/
def connection_task_reports (connectOk : Bool) : List PendingOutcome :=
  if connectOk then [.ok] else [.err]

/-- All outcome reports made for one pending connection token issued by
`fill_out_slots`, across the dial loop and the spawned `connection_task`:
on an unsupported multiaddress the dial loop itself reports `err`; otherwise
the spawned task reports according to the connect result. -/
def pendingTokenReports (addr : Multiaddr) (connectOk : Bool) :
    List PendingOutcome :=
  match multiaddr_to_socket addr with
  | .error _ => [.err]
  | .ok _ => connection_task_reports connectOk

/-- Result of one `read_write` cycle (`service::ReadWrite`), with the fields
the source file reads.  Instants are modelled as `Nat`; `wake_up_after` is
the optional absolute wake-up deadline.  The `wake_up_future` field of the
real structure is the engine wake-up arm of the select and is modelled in
`suspendCompletes`. -/
structure ReadWrite where
  read_bytes : Nat
  written_bytes : Nat
  write_close : Bool
  wake_up_after : Option Nat
  deriving DecidableEq, Repr

/-- The local write-half-closed flag of the socket wrapper after one cycle of
`connection_task`: `tcp_socket.close()` is called exactly when `write_close`
is set and the socket is not closed yet, so afterwards the flag is the old
flag or-ed with `write_close` (on the non-terminating paths). -/
def isClosedAfter (rw : ReadWrite) (isClosed : Bool) : Bool :=
  isClosed || rw.write_close

/-- Whether the cycle invokes `tcp_socket.close()` (line 504-507): only when
`write_close` is set, the read buffer is still present (otherwise the task
already returned at line 494), and `is_closed()` is still false. -/
def closeInvoked (rw : ReadWrite) (readBufferPresent isClosed : Bool) : Bool :=
  rw.write_close && readBufferPresent && !isClosed

/-- How one iteration of the established I/O loop of `connection_task` ends
(lines 494-538): `terminate` models the `flush_close().await; return` path,
`restart` the `continue` taken when the requested wake-up deadline is already
past, and `suspend` the three-way `select!` with the given optional timer
delay (`none` models `future::pending()`, a timer arm that never fires). -/
inductive CycleOutcome where
  | terminate
  | restart (closedAfter : Bool)
  | suspend (closedAfter : Bool) (delay : Option Nat)
  deriving DecidableEq, Repr

/-- The tail of one established-loop iteration of `connection_task`, after a
successful `read_write` call: first the terminating write-close check
(line 494), then the local close (line 504), then building `poll_after` from
`wake_up_after` and `now` (lines 511-521) — a `Delay` of `wake_up - now`
when the deadline is in the future, an immediate `continue` when it is not,
and a never-completing future when there is no deadline — and finally the
`select!`. -/
def cycleTail (rw : ReadWrite) (readBufferPresent isClosed : Bool)
    (now : Nat) : CycleOutcome :=
  if rw.write_close && !readBufferPresent then .terminate
  else
    match rw.wake_up_after with
    | some w =>
      if now < w then .suspend (isClosedAfter rw isClosed) (some (w - now))
      else .restart (isClosedAfter rw isClosed)
    | none => .suspend (isClosedAfter rw isClosed) none

/-- External signals observable at the suspension point of the loop:
readiness of the underlying socket (`tcp_socket.process()`), and the engine
wake-up signal (`read_write.wake_up_future`). -/
structure SignalState where
  socketReady : Bool
  wakeUpSignaled : Bool
  deriving DecidableEq, Repr

/-- Whether the three-armed `select!` of `connection_task` (lines 523-538)
completes, given the optional timer delay, the external signals, and the time
elapsed since the cycle started: it resumes exactly when the socket is ready,
or the engine signalled a wake-up, or a timer delay exists and has elapsed
(with no delay the third arm is `future::pending()` and never fires). -/
def suspendCompletes (delay : Option Nat) (s : SignalState)
    (elapsed : Nat) : Bool :=
  s.socketReady || s.wakeUpSignaled ||
    (match delay with
     | some d => decide (d ≤ elapsed)
     | none => false)

/-- One update of the `next_discovery` variable of the Kademlia discovery
task (line 231): after each wait it becomes `min(next_discovery * 2, 120)`
seconds, before the discovery round runs; the subsequent `match` on the
round's outcome does not touch it, which the unused `Bool` parameter makes
explicit. -/
def discoveryStep (next_discovery : Nat) (_discoveryOk : Bool) : Nat :=
  min (next_discovery * 2) 120

/-- The duration (in seconds) of the n-th wait of the discovery task (line
227-231): the first wait is the initial 5 seconds, and each later wait is
the previous one doubled, capped at 120 seconds. -/
def discoveryWait : Nat → Nat
  | 0 => 5
  | n + 1 => min (discoveryWait n * 2) 120

/-- Peer identities are opaque to this file; modelled as `Nat`. -/
abbrev PeerId := Nat

/-- The engine-internal events consumed by `NetworkService::next_event`
(`service::Event`), with the payloads the source reads.  Block-announce
payloads are opaque and modelled as `Nat`. -/
inductive ServiceEvent where
  | Connected (peer_id : PeerId)
  | Disconnected (peer_id : PeerId) (chain_indices : List Nat)
  | BlockAnnounce (chain_index : Nat) (peer_id : PeerId) (announce : Nat)
  | ChainConnected (peer_id : PeerId) (chain_index : Nat) (best_number : Nat)
  | ChainDisconnected (peer_id : PeerId) (chain_index : Nat)
  | IdentifyRequestIn (peer_id : PeerId)
  deriving DecidableEq, Repr

/-- The public events of the service (`enum Event`, lines 87-102). -/
inductive Event where
  | Connected (chain_index : Nat) (peer_id : PeerId) (best_block_number : Nat)
  | Disconnected (chain_index : Nat) (peer_id : PeerId)
  | BlockAnnounce (chain_index : Nat) (peer_id : PeerId) (announce : Nat)
  deriving DecidableEq, Repr

/-- Translation of one engine event by the `match` inside
`NetworkService::next_event` (lines 359-413).  The first component is the
public event returned from the loop (`none` means the arm falls through and
the loop continues); the second component is the agent string passed to
`request.respond` when the arm answers an identify request inline. -/
def nextEventStep : ServiceEvent → Option Event × Option String
  | .Connected _ => (none, none)
  | .Disconnected peer_id chain_indices =>
    match chain_indices with
    | [] => (none, none)
    | c :: _ => (some (.Disconnected c peer_id), none)
  | .BlockAnnounce chain_index peer_id announce =>
    (some (.BlockAnnounce chain_index peer_id announce), none)
  | .ChainConnected peer_id chain_index best_number =>
    (some (.Connected chain_index peer_id best_number), none)
  | .ChainDisconnected peer_id chain_index =>
    (some (.Disconnected chain_index peer_id), none)
  | .IdentifyRequestIn _ => (none, some "smoldot")

/-- The loop of `NetworkService::next_event` over a stream of engine events
(modelled as a list): keep consuming events until one maps to a public
event. -/
def next_event : List ServiceEvent → Option Event
  | [] => none
  | e :: rest =>
    match (nextEventStep e).1 with
    | some ev => some ev
    | none => next_event rest

/-- The condition checked by the `debug_assert_eq!(chain_indices.len(), 1)`
on line 369, which runs only in the non-empty branch: `none` when the
assertion is not reached (empty list), otherwise whether the asserted
equality holds. -/
def disconnectedDebugAssert (chain_indices : List Nat) : Option Bool :=
  match chain_indices with
  | [] => none
  | l => some (decide (l.length = 1))

/-- A known node entry: peer identity and its multiaddress (the `()` field
of the source's triple carries no information and is dropped). -/
abbrev KnownNode := PeerId × Multiaddr

/-- The inner loop of the bootstrap-node flattening in `NetworkService::new`
(lines 188-192): for each bootstrap node of one chain, push the current
length of `known_nodes` onto the chain's index list, then push the node onto
`known_nodes`. -/
def chainBootstrapFold (known_nodes : List KnownNode)
    (bootstrap : List KnownNode) : List KnownNode × List Nat :=
  bootstrap.foldl
    (fun acc node => (acc.1 ++ [node], acc.2 ++ [acc.1.length]))
    (known_nodes, [])

/-- The outer loop of the bootstrap-node flattening in `NetworkService::new`
(lines 184-205): build the engine-wide `known_nodes` table and, per chain,
the `bootstrap_nodes` index list recorded in that chain's engine config. -/
def buildChainConfigs (chains : List (List KnownNode)) :
    List KnownNode × List (List Nat) :=
  chains.foldl
    (fun acc chain =>
      let r := chainBootstrapFold acc.1 chain
      (r.1, acc.2 ++ [r.2]))
    ([], [])

/-- Modelled from the spec: the index lists that the flattening is expected
to produce — chain after chain, each chain's indices are the consecutive
positions of its own nodes inside the flattened table, starting at the given
offset. -/
def flatIndices : List (List α) → Nat → List (List Nat)
  | [], _ => []
  | chain :: rest, offset =>
    List.range' offset chain.length :: flatIndices rest (offset + chain.length)

/-- Helper: the listen-address parse of `NetworkService::new` succeeds exactly
on the supported listen shapes. -/
theorem parseListen_isOk_eq_shape : ∀ (addr : Multiaddr),
    (parseListenMultiaddr addr).isOk = supportedListenShape addr
  | [] => rfl
  | [p1] => by cases p1 <;> rfl
  | p1 :: p2 :: _ :: _ => by cases p1 <;> cases p2 <;> rfl
  | [p1, p2] => by cases p1 <;> cases p2 <;> rfl

/-- C1 counterexample: the listen address `/dns/example.com/tcp/30333` has
exactly two components and its first component is one of the three DNS-name
variants of the spec's address grammar, yet the listener setup of
`NetworkService::new` returns `BadListenMultiaddr` — even with a bind oracle
that always succeeds — instead of succeeding or returning `ListenerIo`. -/
theorem c1_counterexample :
    ([Protocol.dns "example.com", Protocol.tcp 30333] : Multiaddr).length = 2 ∧
    setupListener (fun _ => true)
        [Protocol.dns "example.com", Protocol.tcp 30333]
      = (Except.error (InitError.BadListenMultiaddr
          [Protocol.dns "example.com", Protocol.tcp 30333]), []) :=
  ⟨rfl, rfl⟩

/-- C1 (amended): for every listen address of exactly two components whose
first component is an `ip4` or `ip6` literal and whose second is a `tcp`
port, the listener setup of `NetworkService::new` either succeeds or returns
`InitError::ListenerIo`; it never returns `BadListenMultiaddr` (and, the
model being a total function, never panics). -/
theorem c1_listen_ip_families (bind : SocketAddr → Bool) (p1 : Protocol)
    (ip port : Nat) (h : p1 = Protocol.ip4 ip ∨ p1 = Protocol.ip6 ip) :
    (∃ s, (setupListener bind [p1, Protocol.tcp port]).1 = Except.ok s) ∨
      (setupListener bind [p1, Protocol.tcp port]).1
        = Except.error (InitError.ListenerIo [p1, Protocol.tcp port]) := by
  rcases h with rfl | rfl
  · cases hb : bind ⟨false, ip, port⟩
    · exact Or.inr (by simp [setupListener, parseListenMultiaddr, hb])
    · exact Or.inl ⟨⟨false, ip, port⟩,
        by simp [setupListener, parseListenMultiaddr, hb]⟩
  · cases hb : bind ⟨true, ip, port⟩
    · exact Or.inr (by simp [setupListener, parseListenMultiaddr, hb])
    · exact Or.inl ⟨⟨true, ip, port⟩,
        by simp [setupListener, parseListenMultiaddr, hb]⟩

/-- C1 witness: the amended theorem instantiated at `/ip4/7/tcp/30333` with
a bind oracle that always fails. -/
theorem c1_witness :
    (∃ s, (setupListener (fun _ => false)
        [Protocol.ip4 7, Protocol.tcp 30333]).1 = Except.ok s) ∨
      (setupListener (fun _ => false) [Protocol.ip4 7, Protocol.tcp 30333]).1
        = Except.error
            (InitError.ListenerIo [Protocol.ip4 7, Protocol.tcp 30333]) :=
  c1_listen_ip_families (fun _ => false) (Protocol.ip4 7) 7 30333 (Or.inl rfl)

/-- C3: for every listen address that does not have exactly two components,
or whose two components are not a supported `(ip4|ip6, tcp)` pair, the
listener setup of `NetworkService::new` returns `BadListenMultiaddr` and
performs no bind attempt. -/
theorem c3_bad_listen_no_bind (bind : SocketAddr → Bool) (addr : Multiaddr)
    (h : supportedListenShape addr = false) :
    setupListener bind addr
      = (Except.error (InitError.BadListenMultiaddr addr), []) := by
  have h2 := parseListen_isOk_eq_shape addr
  rw [h] at h2
  unfold setupListener
  cases hp : parseListenMultiaddr addr with
  | error u => rfl
  | ok s => rw [hp] at h2; simp [Except.isOk, Except.toBool] at h2

/-- C3 witness: the one-component address `/ip4/0` is rejected with
`BadListenMultiaddr` and no bind attempt is recorded. -/
theorem c3_witness :
    supportedListenShape [Protocol.ip4 0] = false ∧
    setupListener (fun _ => true) [Protocol.ip4 0]
      = (Except.error (InitError.BadListenMultiaddr [Protocol.ip4 0]), []) :=
  ⟨rfl, c3_bad_listen_no_bind (fun _ => true) [Protocol.ip4 0] rfl⟩

/-- Helper: `multiaddr_to_socket` succeeds exactly on the supported dial
shapes. -/
theorem dial_isOk_eq_shape : ∀ (addr : Multiaddr),
    (multiaddr_to_socket addr).isOk = supportedDialShape addr
  | [] => rfl
  | [p1] => by cases p1 <;> rfl
  | p1 :: p2 :: _ :: _ => by cases p1 <;> cases p2 <;> rfl
  | [p1, p2] => by cases p1 <;> cases p2 <;> rfl

/-- C4: `multiaddr_to_socket` returns a dial target exactly for
multiaddresses of precisely two components whose first is `ip4`, `ip6`,
`dns`, `dns4` or `dns6` and whose second is `tcp`; for every other
multiaddress the dial loop reports the pending connection as a failure
outcome and continues without attempting a dial or spawning a connection
task. -/
theorem c4_dial_supported_shapes (addr : Multiaddr) :
    (multiaddr_to_socket addr).isOk = supportedDialShape addr ∧
    (supportedDialShape addr = false →
      dialLoopStep addr = DialStep.reportErrContinue ∧
      ∀ connectOk, pendingTokenReports addr connectOk
        = [PendingOutcome.err]) := by
  refine ⟨dial_isOk_eq_shape addr, fun h => ?_⟩
  have h2 := dial_isOk_eq_shape addr
  rw [h] at h2
  cases hp : multiaddr_to_socket addr with
  | error u =>
    exact ⟨by simp [dialLoopStep, hp],
      fun c => by simp [pendingTokenReports, hp]⟩
  | ok t => rw [hp] at h2; simp [Except.isOk, Except.toBool] at h2

/-- C4 witness: the single-component address `/udp/5` is unsupported, the
dial loop reports a failure outcome and spawns nothing. -/
theorem c4_witness :
    supportedDialShape [Protocol.udp 5] = false ∧
    dialLoopStep [Protocol.udp 5] = DialStep.reportErrContinue ∧
    pendingTokenReports [Protocol.udp 5] true = [PendingOutcome.err] :=
  ⟨rfl, ((c4_dial_supported_shapes [Protocol.udp 5]).2 rfl).1,
    ((c4_dial_supported_shapes [Protocol.udp 5]).2 rfl).2 true⟩

/-- C2: for every multiaddress returned by a slot fill and every connect
outcome, exactly one terminal outcome is reported to the engine for the
pending connection token, across all paths of the dial loop and the spawned
`connection_task`. -/
theorem c2_exactly_one_outcome (addr : Multiaddr) (connectOk : Bool) :
    (pendingTokenReports addr connectOk).length = 1 := by
  unfold pendingTokenReports
  cases multiaddr_to_socket addr with
  | error u => rfl
  | ok t => cases connectOk <;> rfl

/-- C5: in the established I/O loop of `connection_task`, when the
read-write result has the write-close flag set: with the read buffer absent
the task flushes, closes the transport and terminates; with the read buffer
still present it does not terminate, invokes the local `close()` exactly when
the write half is not closed yet, and afterwards the write half is closed. -/
theorem c5_write_close_paths (rw : ReadWrite) (isClosed : Bool) (now : Nat)
    (h : rw.write_close = true) :
    cycleTail rw false isClosed now = CycleOutcome.terminate ∧
    cycleTail rw true isClosed now ≠ CycleOutcome.terminate ∧
    closeInvoked rw true isClosed = !isClosed ∧
    isClosedAfter rw isClosed = true := by
  refine ⟨by simp [cycleTail, h], ?_, by simp [closeInvoked, h],
    by simp [isClosedAfter, h]⟩
  simp only [cycleTail, h, Bool.not_true, Bool.and_false, Bool.false_eq_true,
    if_false]
  cases rw.wake_up_after with
  | none => simp
  | some w => by_cases hw : now < w <;> simp [hw]

/-- C5 witness: a cycle with write-close set and no deadline, starting from
an open write half. -/
theorem c5_witness :
    (⟨0, 0, true, none⟩ : ReadWrite).write_close = true ∧
    cycleTail ⟨0, 0, true, none⟩ false false 0 = CycleOutcome.terminate ∧
    cycleTail ⟨0, 0, true, none⟩ true false 0 ≠ CycleOutcome.terminate ∧
    closeInvoked ⟨0, 0, true, none⟩ true false = !false ∧
    isClosedAfter ⟨0, 0, true, none⟩ false = true :=
  ⟨rfl, c5_write_close_paths ⟨0, 0, true, none⟩ false 0 rfl⟩

/-- C6: between I/O cycles `connection_task` suspends on exactly the
three-way race of transport readiness, the engine wake-up future, and the
engine-requested deadline (an absent deadline never fires); and whenever the
read-write result carries a wake-up deadline at or before the timestamp
passed to the cycle, the loop restarts immediately without waiting on any of
the three signals. -/
theorem c6_three_way_race :
    (∀ (rw : ReadWrite) (readBuf isClosed : Bool) (now w : Nat),
        rw.wake_up_after = some w → w ≤ now →
        (rw.write_close && !readBuf) = false →
        cycleTail rw readBuf isClosed now
          = CycleOutcome.restart (isClosedAfter rw isClosed)) ∧
    (∀ (rw : ReadWrite) (readBuf isClosed : Bool) (now w : Nat),
        rw.wake_up_after = some w → now < w →
        (rw.write_close && !readBuf) = false →
        cycleTail rw readBuf isClosed now
          = CycleOutcome.suspend (isClosedAfter rw isClosed)
              (some (w - now))) ∧
    (∀ (rw : ReadWrite) (readBuf isClosed : Bool) (now : Nat),
        rw.wake_up_after = none →
        (rw.write_close && !readBuf) = false →
        cycleTail rw readBuf isClosed now
          = CycleOutcome.suspend (isClosedAfter rw isClosed) none) ∧
    (∀ (delay : Option Nat) (s : SignalState) (elapsed : Nat),
        suspendCompletes delay s elapsed = true ↔
          (s.socketReady = true ∨ s.wakeUpSignaled = true ∨
            ∃ d, delay = some d ∧ d ≤ elapsed)) := by
  refine ⟨?_, ?_, ?_, ?_⟩
  · intro rw readBuf isClosed now w hw hle hnc
    simp [cycleTail, hnc, hw, Nat.not_lt.mpr hle]
  · intro rw readBuf isClosed now w hw hlt hnc
    simp [cycleTail, hnc, hw, hlt]
  · intro rw readBuf isClosed now hw hnc
    simp [cycleTail, hnc, hw]
  · intro delay s elapsed
    cases delay <;> simp [suspendCompletes, or_assoc]

/-- C6 witness: a cycle whose deadline 3 is before the timestamp 5 restarts
immediately. -/
theorem c6_witness :
    cycleTail ⟨1, 2, false, some 3⟩ true false 5
      = CycleOutcome.restart (isClosedAfter ⟨1, 2, false, some 3⟩ false) :=
  c6_three_way_race.1 ⟨1, 2, false, some 3⟩ true false 5 3 rfl (by decide)
    (by decide)

/-- Helper: from the sixth wait on, the discovery wait is pinned at 120. -/
theorem discoveryWait_add_five (n : Nat) : discoveryWait (n + 5) = 120 := by
  induction n with
  | zero => rfl
  | succ n ih =>
    show min (discoveryWait (n + 5) * 2) 120 = 120
    rw [ih]
    decide

/-- C7: the sequence of waits before successive discovery rounds of one
chain's discovery task is 5, 10, 20, 40, 80, and then 120 forever (doubling
from 5 seconds, capped at 120 seconds), and each update of the wait is
`min(2x, 120)` independently of the discovery round's outcome. -/
theorem c7_discovery_backoff :
    (∀ n, discoveryWait n = if n < 5 then 5 * 2 ^ n else 120) ∧
    (∀ n outcome,
      discoveryWait (n + 1) = discoveryStep (discoveryWait n) outcome) ∧
    (∀ b o1 o2, discoveryStep b o1 = discoveryStep b o2) := by
  refine ⟨?_, fun n o => rfl, fun b o1 o2 => rfl⟩
  intro n
  by_cases h : n < 5
  · interval_cases n <;> decide
  · push_neg at h
    obtain ⟨m, rfl⟩ := Nat.exists_eq_add_of_le h
    have h5 : ¬(5 + m < 5) := by omega
    rw [if_neg h5, Nat.add_comm 5 m]
    exact discoveryWait_add_five m

/-- C8: `next_event` loops over engine-internal events until one maps to a
public event: transport-level `Connected` notifications and inbound identify
requests (answered inline with the fixed agent string "smoldot") are consumed
without returning, while `ChainConnected`, `ChainDisconnected`,
`BlockAnnounce`, and `Disconnected` with a non-empty chain list each produce
exactly one public event for the caller. -/
theorem c8_next_event_translation :
    (∀ p, nextEventStep (ServiceEvent.Connected p) = (none, none)) ∧
    (∀ p, nextEventStep (ServiceEvent.IdentifyRequestIn p)
      = (none, some "smoldot")) ∧
    (∀ p c b, nextEventStep (ServiceEvent.ChainConnected p c b)
      = (some (Event.Connected c p b), none)) ∧
    (∀ p c, nextEventStep (ServiceEvent.ChainDisconnected p c)
      = (some (Event.Disconnected c p), none)) ∧
    (∀ c p a, nextEventStep (ServiceEvent.BlockAnnounce c p a)
      = (some (Event.BlockAnnounce c p a), none)) ∧
    (∀ p c rest, ∃ ev,
      nextEventStep (ServiceEvent.Disconnected p (c :: rest))
        = (some ev, none)) ∧
    (∀ e rest, (nextEventStep e).1 = none →
      next_event (e :: rest) = next_event rest) ∧
    (∀ e rest ev, (nextEventStep e).1 = some ev →
      next_event (e :: rest) = some ev) := by
  refine ⟨fun p => rfl, fun p => rfl, fun p c b => rfl, fun p c => rfl,
    fun c p a => rfl, fun p c rest => ⟨Event.Disconnected c p, rfl⟩, ?_, ?_⟩
  · intro e rest h
    simp [next_event, h]
  · intro e rest ev h
    simp [next_event, h]

/-- C8 witness: a transport-level connected notification is looped past and
the following chain-disconnected event is returned. -/
theorem c8_witness :
    next_event [ServiceEvent.Connected 4, ServiceEvent.ChainDisconnected 1 2]
      = next_event [ServiceEvent.ChainDisconnected 1 2] ∧
    next_event [ServiceEvent.ChainDisconnected 1 2]
      = some (Event.Disconnected 2 1) :=
  ⟨c8_next_event_translation.2.2.2.2.2.2.1 (ServiceEvent.Connected 4)
      [ServiceEvent.ChainDisconnected 1 2] rfl,
    c8_next_event_translation.2.2.2.2.2.2.2 (ServiceEvent.ChainDisconnected 1 2)
      [] (Event.Disconnected 2 1) rfl⟩

/-- C10: a `Disconnected` engine event with a non-empty chain list yields a
single public `Disconnected` event carrying only the first chain index (the
remaining indices are ignored, whatever they are), the debug assertion of
that branch checks exactly that the list has length one, and a `Disconnected`
event with an empty chain list is skipped without returning (its assertion is
never reached). -/
theorem c10_disconnected_first_chain :
    (∀ p c rest, nextEventStep (ServiceEvent.Disconnected p (c :: rest))
      = (some (Event.Disconnected c p), none)) ∧
    (∀ p c rest rest2,
      nextEventStep (ServiceEvent.Disconnected p (c :: rest))
        = nextEventStep (ServiceEvent.Disconnected p (c :: rest2))) ∧
    (∀ c rest, disconnectedDebugAssert (c :: rest)
      = some (decide (rest.length = 0))) ∧
    (∀ p, nextEventStep (ServiceEvent.Disconnected p []) = (none, none)) ∧
    disconnectedDebugAssert [] = none := by
  refine ⟨fun p c rest => rfl, fun p c rest rest2 => rfl, ?_,
    fun p => rfl, rfl⟩
  intro c rest
  show some (decide ((c :: rest).length = 1)) = some (decide (rest.length = 0))
  exact congrArg some (decide_eq_decide.mpr (by simp))

/-- Helper: unrolling the inner bootstrap fold with an arbitrary
accumulator. -/
theorem bootstrapFold_go (chain : List KnownNode) :
    ∀ (known : List KnownNode) (idxs : List Nat),
      chain.foldl
          (fun acc node => (acc.1 ++ [node], acc.2 ++ [acc.1.length]))
          (known, idxs)
        = (known ++ chain, idxs ++ List.range' known.length chain.length) := by
  induction chain with
  | nil => intro known idxs; simp
  | cons a t ih =>
    intro known idxs
    rw [List.foldl_cons, ih]
    simp [List.range'_succ, List.append_assoc]

/-- Helper: closed form of the inner bootstrap fold. -/
theorem chainBootstrapFold_eq (known chain : List KnownNode) :
    chainBootstrapFold known chain
      = (known ++ chain, List.range' known.length chain.length) := by
  simpa [chainBootstrapFold] using bootstrapFold_go chain known []

/-- Helper: unrolling the outer chain fold with an arbitrary accumulator. -/
theorem buildConfigs_go (chains : List (List KnownNode)) :
    ∀ (known : List KnownNode) (idxlists : List (List Nat)),
      chains.foldl
          (fun acc chain =>
            let r := chainBootstrapFold acc.1 chain
            (r.1, acc.2 ++ [r.2]))
          (known, idxlists)
        = (known ++ chains.flatten,
            idxlists ++ flatIndices chains known.length) := by
  induction chains with
  | nil => intro known idxlists; simp [flatIndices]
  | cons c t ih =>
    intro known idxlists
    rw [List.foldl_cons]
    show (t.foldl _ ((chainBootstrapFold known c).1,
        idxlists ++ [(chainBootstrapFold known c).2])) = _
    rw [chainBootstrapFold_eq, ih]
    simp [flatIndices, List.append_assoc]

/-- Helper: closed form of the bootstrap-node flattening. -/
theorem buildChainConfigs_eq (chains : List (List KnownNode)) :
    buildChainConfigs chains = (chains.flatten, flatIndices chains 0) := by
  simpa [buildChainConfigs] using buildConfigs_go chains [] []

/-- Helper: mapping lookups in `pre ++ (l ++ suf)` over the index range of
the middle block recovers exactly the middle block. -/
theorem getD_range_map (d : KnownNode) (l : List KnownNode) :
    ∀ (pre suf : List KnownNode),
      (List.range' pre.length l.length).map
          (fun j => (pre ++ (l ++ suf)).getD j d)
        = l := by
  induction l with
  | nil => intro pre suf; simp
  | cons a t ih =>
    intro pre suf
    rw [List.length_cons, List.range'_succ, List.map_cons]
    congr 1
    · rw [List.getD_append_right _ _ _ _ (Nat.le_refl _)]
      simp
    · have e1 : pre ++ (a :: t ++ suf) = (pre ++ [a]) ++ (t ++ suf) := by
        simp
      have e2 : pre.length + 1 = (pre ++ [a]).length := by simp
      simp only [List.cons_append] at e1 ⊢
      rw [e1, e2]
      exact ih (pre ++ [a]) suf

/-- Helper: looking up each chain's recorded indices in the flattened table
yields that chain's own bootstrap list. -/
theorem flatIndices_getD_map (chains : List (List KnownNode)) :
    ∀ (pre : List KnownNode) (i : Nat),
      ((flatIndices chains pre.length).getD i []).map
          (fun j => (pre ++ chains.flatten).getD j (0, []))
        = chains.getD i [] := by
  induction chains with
  | nil => intro pre i; simp [flatIndices]
  | cons c t ih =>
    intro pre i
    cases i with
    | zero =>
      show (List.range' pre.length c.length).map
          (fun j => (pre ++ (c :: t).flatten).getD j (0, [])) = c
      rw [List.flatten_cons]
      exact getD_range_map (0, []) c pre t.flatten
    | succ i =>
      show ((flatIndices t (pre.length + c.length)).getD i []).map
          (fun j => (pre ++ (c :: t).flatten).getD j (0, [])) = t.getD i []
      have e1 : pre.length + c.length = (pre ++ c).length := by simp
      have e2 : pre ++ (c :: t).flatten = (pre ++ c) ++ t.flatten := by simp
      rw [e1, e2]
      exact ih (pre ++ c) i

/-- C9: `NetworkService::new` builds the engine's known-peer table as the
in-order concatenation of all chains' bootstrap peer lists; each chain's
engine-side config records exactly the consecutive indices of its own block
of that flattened table, and looking those indices up in the table returns
that chain's own bootstrap peers in configuration order. -/
theorem c9_bootstrap_flatten (chains : List (List KnownNode)) :
    (buildChainConfigs chains).1 = chains.flatten ∧
    (buildChainConfigs chains).2 = flatIndices chains 0 ∧
    ∀ i, ((buildChainConfigs chains).2.getD i []).map
        (fun j => (buildChainConfigs chains).1.getD j (0, []))
      = chains.getD i [] := by
  refine ⟨by rw [buildChainConfigs_eq], by rw [buildChainConfigs_eq], ?_⟩
  intro i
  rw [buildChainConfigs_eq]
  simpa using flatIndices_getD_map chains [] i
